import Mathlib

/-!
Verification of the gitspoke archive orchestration engine.

Shallow embedding of `src/gitspoke/cli.py` (class `GitHubAPI`, class
`Downloader`).  Python's mutable dictionaries become explicit state
passing; Python exceptions become explicit outcome values threaded
through each operation; the network, the filesystem and the external
`git` subprocess become oracle parameters describing the responses the
real code would have received.
-/

set_option autoImplicit false

namespace Gitspoke

/-- Python's `needle in hay` for the prefix position check: `isPre n h`
is true when `n` is an initial segment of `h`. -/
def isPre : List Char → List Char → Bool
  | [], _ => true
  | _ :: _, [] => false
  | a :: as, b :: bs => a == b && isPre as bs

/-- Search every suffix of the haystack for the needle as a prefix. -/
def subSearch (needle : List Char) : List Char → Bool
  | [] => isPre needle []
  | c :: rest => isPre needle (c :: rest) || subSearch needle rest

/-- Python's substring test `needle in hay`. -/
def containsSub (hay needle : String) : Bool :=
  subSearch needle.toList hay.toList

/-- Python's `str.lower()` (modelled characterwise, which agrees with
CPython on the ASCII text the code compares against). -/
def strLower (s : String) : String :=
  String.mk (s.toList.map Char.toLower)

/-- Manifest entry statuses.  The source writes exactly the strings
`"success"`, `"not found"` and `"error"` (`update_manifest` call sites). -/
inductive Status where
  | success
  | notFound
  | error
deriving DecidableEq, Repr

/-- One manifest entry, `{"timestamp": ..., "status": ...}` as written by
`Downloader.update_manifest`. -/
structure ManifestEntry where
  timestamp : String
  status : Status
deriving DecidableEq, Repr

/-- Association-list model of the Python dict `manifest["entries"]`:
lookup. -/
def getEntry : List (String × ManifestEntry) → String → Option ManifestEntry
  | [], _ => none
  | (k, v) :: rest, key => if k = key then some v else getEntry rest key

/-- Association-list model of the Python dict `manifest["entries"]`:
`entries[item] = value` (replace if present, append otherwise). -/
def setEntry : List (String × ManifestEntry) → String → ManifestEntry →
    List (String × ManifestEntry)
  | [], key, v => [(key, v)]
  | (k, w) :: rest, key, v =>
    if k = key then (key, v) :: rest else (k, w) :: setEntry rest key v

/--
In-memory state of a `Downloader` between `load_manifest` and
`save_manifest`.

`load_manifest` sets `self.original_manifest = self.manifest.copy()`.
`dict.copy()` is a SHALLOW copy: both dicts hold a reference to the very
same `entries` dict, so every later `update_manifest` mutation is seen
through both `self.manifest` and `self.original_manifest`.  We therefore
keep a single `entries` component (shared by construction) and model
separately only the top-level `user_agent` value of each of the two
dicts, which is the one top-level binding that can make them differ.
-/
structure DState where
  entries : List (String × ManifestEntry)
  userAgent : Option String
  origUserAgent : Option String
deriving DecidableEq, Repr

/-- `Downloader.update_manifest(item, status, timestamp)`.  The source
defaults `timestamp` to the current UTC time; the caller's clock is the
explicit `timestamp` argument here. -/
def update_manifest (s : DState) (item : String) (status : Status)
    (timestamp : String) : DState :=
  { s with entries := setEntry s.entries item ⟨timestamp, status⟩ }

/-- What `manifest.json` holds on disk before a run: absent, present but
not parseable by `json.loads` (which then raises `JSONDecodeError`), or
a parsed JSON object with an optional `user_agent` string and an
optional `entries` object. -/
inductive ManifestFile where
  | absent
  | invalid
  | valid (userAgent : Option String)
      (entries : Option (List (String × ManifestEntry)))
deriving Repr

/-- `Downloader.load_manifest(output_dir)`.  If the file exists the
source runs `json.loads` with no exception handler, so an unparseable
file raises (modelled as `Except.error ()`); a parsed object gets
`setdefault` of an empty `entries` applied and is then shallow-copied into
`original_manifest`. -/
def load_manifest : ManifestFile → Except Unit DState
  | .absent => .ok ⟨[], none, none⟩
  | .invalid => .error ()
  | .valid ua ents => .ok ⟨ents.getD [], ua, ua⟩

/-- The serialized manifest as written to `manifest.json`. -/
structure SavedManifest where
  userAgent : Option String
  entries : List (String × ManifestEntry)
deriving DecidableEq, Repr

/-- The comparison `self.manifest != self.original_manifest` inside
`save_manifest`.  Python dict inequality compares keys and values; the
`entries` values of the two dicts are the same aliased object (see
`DState`), hence always equal, so the comparison reduces to the only
top-level binding that can differ, `user_agent`. -/
def manifests_differ (s : DState) : Bool :=
  s.userAgent != s.origUserAgent

/-- `Downloader.save_manifest(output_dir)`; `version` is the package
`__version__` string.  Stamps `user_agent` when the key is absent or the
dict comparison reports a change, then serializes. -/
def save_manifest (version : String) (s : DState) : DState × SavedManifest :=
  let s1 := if s.userAgent.isNone || manifests_differ s then
      { s with userAgent := some ("gitspoke/" ++ version) }
    else s
  (s1, ⟨s1.userAgent, s1.entries⟩)

/-- `Downloader.manifest_success(item, path)`.  `fileMtime` is `some t`
precisely when a `path` argument was given and that file exists on disk
with modification time `t`; the source then backfills a `success` entry
from the file's mtime. -/
def manifest_success (s : DState) (item : String) (fileMtime : Option String) :
    Bool × DState :=
  match getEntry s.entries item with
  | some e =>
    if e.status ≠ Status.error then (true, s)
    else
      match fileMtime with
      | some t => (true, update_manifest s item .success t)
      | none => (false, s)
  | none =>
    match fileMtime with
    | some t => (true, update_manifest s item .success t)
    | none => (false, s)

/-- Response metadata consulted by the rate-limit branch of
`GitHubAPI.request`: the HTTP status plus the `x-ratelimit-remaining`,
`retry-after` and `x-ratelimit-reset` headers. -/
structure HttpResp where
  status : Nat
  ratelimitRemaining : Option String
  retryAfter : Option Int
  ratelimitReset : Int
deriving DecidableEq, Repr

/-- The rate-limit test in `GitHubAPI.request`:
`status_code in (403, 429) and headers.get('x-ratelimit-remaining') == '0'`. -/
def rate_limited (r : HttpResp) : Bool :=
  (r.status == 403 || r.status == 429) && r.ratelimitRemaining == some "0"

/-- The duration handed to `time.sleep` by `GitHubAPI.request` when a
rate-limited response is seen at wall-clock time `now`:
`int(retry_after)` if that header is present, else
`int(reset_time) - time.time()`; then `min(sleep_time + 1, max_wait)`.
(`time.time()` is a float in the source; integer seconds keep the same
arithmetic shape and sign behaviour.) -/
def rate_limit_sleep (maxWait : Int) (r : HttpResp) (now : Int) : Int :=
  let sleepTime : Int :=
    match r.retryAfter with
    | some ra => ra
    | none => r.ratelimitReset - now
  min (sleepTime + 1) maxWait

/-- One transport-level result inside a pagination walk: either a page
(its item array after any `list_key` unwrapping, and whether a `next`
link is present) or an `HTTPError` raised by `request` /
`raise_for_status`, carrying `e.response.status_code` and
`e.response.text`.  Items are opaque JSON values, kept as strings. -/
inductive PageResult where
  | page (items : List String) (hasNext : Bool)
  | httpError (status : Nat) (body : String)
deriving DecidableEq, Repr

/-- The test in `GitHubAPI.paginate`'s handler:
`e.response.status_code == 422 and "pagination is limited" in e.response.text.lower()`. -/
def pagination_limit_error (status : Nat) (body : String) : Bool :=
  status == 422 && containsSub (strLower body) "pagination is limited"

/-- How a generator run ends: normally, or with an uncaught exception. -/
inductive PagOutcome where
  | normal
  | raised (status : Nat) (body : String)
deriving DecidableEq, Repr

/-- `GitHubAPI.paginate`, driven by the oracle list of successive
transport results (one entry per `request` the loop issues; a page with
`hasNext = true` is followed by the next entry).  Yields each page's
items in order; stops at the first page without a `next` link; on an
`HTTPError`, returns silently if it is the 422 pagination-limit error
and re-raises otherwise.  Returns the items yielded so far together
with how the generator ended. -/
def paginate : List PageResult → List String × PagOutcome
  | [] => ([], .normal)
  | .page items hasNext :: rest =>
    if hasNext then
      let r := paginate rest
      (items ++ r.1, r.2)
    else (items, .normal)
  | .httpError st body :: _ =>
    if pagination_limit_error st body then ([], .normal)
    else ([], .raised st body)

/-- All pages in the oracle list are complete pages carrying a `next`
link (the shape of every page before a mid-stream failure). -/
def allNextPages : List PageResult → Bool
  | [] => true
  | .page _ true :: rest => allNextPages rest
  | _ => false

/-- The items of the pages of an oracle list, in order. -/
def itemsOf : List PageResult → List String
  | [] => []
  | .page items _ :: rest => items ++ itemsOf rest
  | .httpError _ _ :: rest => itemsOf rest

/-- Python exceptions that cross function boundaries in the sliced code:
`requests.exceptions.HTTPError` (status and body),
`subprocess.CalledProcessError` (stderr) and `json.JSONDecodeError`. -/
inductive PyExc where
  | httpError (status : Nat) (body : String)
  | calledProcess (stderr : String)
  | jsonDecode
deriving DecidableEq, Repr

/-- Result of a single non-paginated `GitHubAPI.request` as seen by its
caller: the response body on success (after `raise_for_status` passed),
or the `HTTPError` it raised. -/
inductive FetchOutcome where
  | ok (body : String)
  | httpError (status : Nat) (body : String)
deriving DecidableEq, Repr

/-- What `write_api_response` serialized into the target file: the
materialized item list (paginated mode) or the single response body. -/
inductive WrittenJson where
  | list (items : List String)
  | single (body : String)
deriving DecidableEq, Repr

/-- Observable effects of one `Downloader.write_api_response` call. -/
structure ApiEffect where
  state : DState
  fileWritten : Option WrittenJson
  exc : Option PyExc
deriving DecidableEq, Repr

/-- `Downloader.write_api_response(path, endpoint, paginate, expect_404)`.
`item` is `path.stem`; `fileMtime` feeds `manifest_success`; `pages` is
the transport oracle consumed when `paginate` is true, `single` the one
request's outcome otherwise.  In paginated mode `list(...)` forces the
generator: if an `HTTPError` escapes it, `results` is never bound and no
file is written; the handler then records `not found` for a 404 on an
`expect_404` item, and records `error` and re-raises for anything else. -/
def write_api_response (s : DState) (now : String) (item : String)
    (fileMtime : Option String) (paginateMode : Bool) (expect404 : Bool)
    (pages : List PageResult) (single : FetchOutcome) : ApiEffect :=
  match manifest_success s item fileMtime with
  | (true, s1) => ⟨s1, none, none⟩
  | (false, s1) =>
    let attempt : Except (Nat × String) WrittenJson :=
      if paginateMode then
        match paginate pages with
        | (items, .normal) => .ok (.list items)
        | (_, .raised st body) => .error (st, body)
      else
        match single with
        | .ok body => .ok (.single body)
        | .httpError st body => .error (st, body)
    match attempt with
    | .ok w => ⟨update_manifest s1 item .success now, some w, none⟩
    | .error (st, body) =>
      if st == 404 && expect404 then
        ⟨update_manifest s1 item .notFound now, none, none⟩
      else
        ⟨update_manifest s1 item .error now, none, some (.httpError st body)⟩

/-- Outcome of one external `git` subprocess (`git clone --mirror` or
`git bundle create`): success, or `CalledProcessError` with the given
stderr. -/
inductive GitResult where
  | ok
  | err (stderr : String)
deriving DecidableEq, Repr

/-- Observable effects of one `Downloader.download_git_repo` call.
`cloneAttempted` is true when the skip check fell through and the
`git clone` subprocess was actually started; `bundleWritten` is true
when the temp bundle was renamed into the destination path. -/
structure GitEffect where
  state : DState
  cloneAttempted : Bool
  bundleWritten : Bool
  exc : Option PyExc
deriving DecidableEq, Repr

/-- `Downloader.download_git_repo(bundle_file, extension)`.  `item` is
`bundle_file.stem`.  A clone failure whose stderr holds
`"Repository not found"` records `not found` and returns; any other
clone failure records `error` and returns; a bundle-create failure whose
stderr holds `"Refusing to create empty bundle"` records `not found` and
returns; any other bundle-create failure re-raises; on success the temp
bundle is renamed into place and `success` recorded. -/
def download_git_repo (s : DState) (now : String) (item : String)
    (fileMtime : Option String) (clone : GitResult) (bundle : GitResult) :
    GitEffect :=
  match manifest_success s item fileMtime with
  | (true, s1) => ⟨s1, false, false, none⟩
  | (false, s1) =>
    match clone with
    | .err e =>
      if containsSub e "Repository not found" then
        ⟨update_manifest s1 item .notFound now, true, false, none⟩
      else
        ⟨update_manifest s1 item .error now, true, false, none⟩
    | .ok =>
      match bundle with
      | .err e =>
        if containsSub e "Refusing to create empty bundle" then
          ⟨update_manifest s1 item .notFound now, true, false, none⟩
        else
          ⟨s1, true, false, some (.calledProcess e)⟩
      | .ok => ⟨update_manifest s1 item .success now, true, true, none⟩

/-- Observable effects of one `Downloader.download_readme` call. -/
structure ReadmeEffect where
  state : DState
  htmlWritten : Option String
  exc : Option PyExc
deriving DecidableEq, Repr

/-- `Downloader.download_readme(output_dir)`.  Any `HTTPError` from the
readme request is caught: `error` is recorded and the function returns
with nothing written; on success the HTML body is written and `success`
recorded. -/
def download_readme (s : DState) (now : String) (fileMtime : Option String)
    (fetch : FetchOutcome) : ReadmeEffect :=
  match manifest_success s "readme" fileMtime with
  | (true, s1) => ⟨s1, none, none⟩
  | (false, s1) =>
    match fetch with
    | .httpError _ _ => ⟨update_manifest s1 "readme" .error now, none, none⟩
    | .ok text => ⟨update_manifest s1 "readme" .success now, some text, none⟩

/-- Repository metadata (`repo_info`): the orchestrator consults only
`repo_info.get('has_wiki')`, so only that field is modelled. -/
structure RepoInfo where
  hasWiki : Bool
deriving DecidableEq, Repr

/-- Outcome of the repo-identity request `GET /repos/{owner}/{repo}`. -/
inductive RepoFetch where
  | ok (info : RepoInfo)
  | httpError (status : Nat) (body : String)
deriving DecidableEq, Repr

/-- One row of the module-level `endpoints` table: target filename, API
path suffix, and the keyword options (`list_key`, `paginate`,
`expect_404`) with their source defaults. -/
structure EndpointSpec where
  filename : String
  url : String
  listKey : Option String
  paginateMode : Bool
  expect404 : Bool
deriving DecidableEq, Repr

/-- The module-level `endpoints` catalog, row for row. -/
def endpoints : List EndpointSpec := [
  ⟨"issues.json", "issues?state=all", none, true, false⟩,
  ⟨"issue_comments.json", "issues/comments", none, true, false⟩,
  ⟨"labels.json", "labels", none, true, false⟩,
  ⟨"milestones.json", "milestones?state=all", none, true, false⟩,
  ⟨"pull_requests.json", "pulls?state=all", none, true, false⟩,
  ⟨"pr_review_comments.json", "pulls/comments", none, true, false⟩,
  ⟨"releases.json", "releases", none, true, false⟩,
  ⟨"tags.json", "tags", none, true, false⟩,
  ⟨"security_advisories.json", "security-advisories", none, true, false⟩,
  ⟨"workflows.json", "actions/workflows", some "workflows", true, false⟩,
  ⟨"stargazers.json", "stargazers", none, true, false⟩,
  ⟨"watchers.json", "subscribers", none, true, false⟩,
  ⟨"contributors.json", "contributors", none, true, false⟩,
  ⟨"commit_comments.json", "comments", none, true, false⟩,
  ⟨"forks.json", "forks", none, true, false⟩,
  ⟨"branches.json", "branches", none, true, false⟩,
  ⟨"pages.json", "pages", none, true, true⟩,
  ⟨"languages.json", "languages", none, false, false⟩]

/-- `filename.split(".")[0]`, the manifest key and include token of a
catalog row (equal to `path.stem` for these names): the characters
before the first dot. -/
def stemOf (filename : String) : String :=
  String.mk (filename.toList.takeWhile (fun c => c != '.'))

/-- Per-item oracle: whether the target file already exists (with its
mtime), and the transport results the item's fetch would see —
`pages` is consumed in paginated mode, `single` otherwise. -/
structure ItemOracle where
  mtime : Option String
  pages : List PageResult
  single : FetchOutcome

/-- Everything outside the orchestrator that a `download_repo` run
observes: the manifest file, the cached-or-fetched repo info, the git
subprocess results for the two mirrors, the readme fetch, the
per-endpoint oracles (keyed by catalog stem), the clock and the package
version. -/
structure World where
  manifestFile : ManifestFile
  repoInfoCached : Option (RepoInfo × String)
  repoFetch : RepoFetch
  bundleMtime : Option String
  bundleClone : GitResult
  bundleBundle : GitResult
  wikiMtime : Option String
  wikiClone : GitResult
  wikiBundle : GitResult
  readmeMtime : Option String
  readmeFetch : FetchOutcome
  endpointOracle : String → ItemOracle
  now : String
  version : String

/-- How a `download_repo` run ends: fell off the end, returned early
from the repo-identity branch, or let an exception propagate. -/
inductive RunOutcome where
  | completed
  | earlyReturn
  | raised (e : PyExc)
deriving DecidableEq, Repr

/-- Observable effects of one `download_repo` run.  `state` is the
in-memory manifest at the point control left the function (`none` when
`load_manifest` raised before it was bound); `saved` is the manifest
written by the final `save_manifest`, when that call was reached. -/
structure RunResult where
  dirCreated : Bool
  state : Option DState
  repoInfoWrite : Option RepoInfo
  gitAttempts : List String
  bundleWrites : List String
  readmeInvoked : Bool
  readmeWrite : Option String
  endpointCalls : List String
  endpointWrites : List (String × WrittenJson)
  saved : Option SavedManifest
  outcome : RunOutcome
deriving DecidableEq, Repr

/-- The repo-identity block of `download_repo`: use the cached
`repo_info.json` (backfilling its manifest entry) when it exists,
otherwise fetch once — an `HTTPError` there (404 or any other status)
makes the whole run return early; a successful fetch records `success`
and writes `repo_info.json`.  Returns `none` on early return, else the
updated state, the resolved info, and the info written this run. -/
def repo_step (w : World) (s0 : DState) :
    Option (DState × RepoInfo × Option RepoInfo) :=
  match w.repoInfoCached with
  | some (info, mtime) => some ((manifest_success s0 "repo_info" (some mtime)).2, info, none)
  | none =>
    match w.repoFetch with
    | .httpError _ _ => none
    | .ok info => some (update_manifest s0 "repo_info" .success w.now, info, some info)

/-- Accumulated result of the endpoint `for` loop. -/
structure LoopResult where
  state : DState
  calls : List String
  writes : List (String × WrittenJson)
  exc : Option PyExc
deriving DecidableEq, Repr

/-- The endpoint loop at the bottom of `download_repo`: for each catalog
row whose stem is selected (or when `"all"` is selected), call
`write_api_response`; an exception escaping one call aborts the rest of
the loop and propagates. -/
def run_endpoints (w : World) (includeSet : List String) :
    DState → List EndpointSpec → LoopResult
  | s, [] => ⟨s, [], [], none⟩
  | s, ep :: rest =>
    let stem := stemOf ep.filename
    if includeSet.contains "all" || includeSet.contains stem then
      let o := w.endpointOracle stem
      let eff := write_api_response s w.now stem o.mtime ep.paginateMode
        ep.expect404 o.pages o.single
      let written : List (String × WrittenJson) :=
        match eff.fileWritten with
        | some j => [(stem, j)]
        | none => []
      match eff.exc with
      | some e => ⟨eff.state, [stem], written, some e⟩
      | none =>
        let r := run_endpoints w includeSet eff.state rest
        ⟨r.state, stem :: r.calls, written ++ r.writes, r.exc⟩
    else run_endpoints w includeSet s rest

/-- `Downloader.download_repo(output_dir, include)`.  Mirrors the source
control flow: default the include list, create the output directory,
load the manifest (a parse error propagates), resolve repo identity
(early return on an HTTP error there), then bundle, wiki (note the
source condition `"all" in include_set or "wiki" in include_set and
repo_info.get('has_wiki')`, in which Python binds `and` tighter than
`or`), readme and the endpoint loop, and finally `save_manifest` — an
exception raised by any of the intermediate steps propagates out before
the save. -/
def download_repo (w : World) (inc : Option (List String)) : RunResult :=
  let includeSet := inc.getD []
  match load_manifest w.manifestFile with
  | .error _ =>
    ⟨true, none, none, [], [], false, none, [], [], none, .raised .jsonDecode⟩
  | .ok s0 =>
    match repo_step w s0 with
    | none => ⟨true, some s0, none, [], [], false, none, [], [], none, .earlyReturn⟩
    | some (s1, info, infoWrite) =>
      let doBundle := includeSet.contains "all" || includeSet.contains "bundle"
      let gEff := if doBundle then
          download_git_repo s1 w.now "git" w.bundleMtime w.bundleClone w.bundleBundle
        else ⟨s1, false, false, none⟩
      let gAtt := if gEff.cloneAttempted then ["git"] else []
      let gWr := if gEff.bundleWritten then ["git"] else []
      match gEff.exc with
      | some e =>
        ⟨true, some gEff.state, infoWrite, gAtt, gWr, false, none, [], [], none, .raised e⟩
      | none =>
        let doWiki := includeSet.contains "all" ||
          (includeSet.contains "wiki" && info.hasWiki)
        let wEff := if doWiki then
            download_git_repo gEff.state w.now "wiki" w.wikiMtime w.wikiClone w.wikiBundle
          else ⟨gEff.state, false, false, none⟩
        let wAtt := gAtt ++ (if wEff.cloneAttempted then ["wiki"] else [])
        let wWr := gWr ++ (if wEff.bundleWritten then ["wiki"] else [])
        match wEff.exc with
        | some e =>
          ⟨true, some wEff.state, infoWrite, wAtt, wWr, false, none, [], [], none, .raised e⟩
        | none =>
          let doReadme := includeSet.contains "all" || includeSet.contains "readme"
          let rEff := if doReadme then
              download_readme wEff.state w.now w.readmeMtime w.readmeFetch
            else ⟨wEff.state, none, none⟩
          match rEff.exc with
          | some e =>
            ⟨true, some rEff.state, infoWrite, wAtt, wWr, doReadme,
              rEff.htmlWritten, [], [], none, .raised e⟩
          | none =>
            let lr := run_endpoints w includeSet rEff.state endpoints
            match lr.exc with
            | some e =>
              ⟨true, some lr.state, infoWrite, wAtt, wWr, doReadme,
                rEff.htmlWritten, lr.calls, lr.writes, none, .raised e⟩
            | none =>
              let sv := save_manifest w.version lr.state
              ⟨true, some sv.1, infoWrite, wAtt, wWr, doReadme,
                rEff.htmlWritten, lr.calls, lr.writes, some sv.2, .completed⟩

/-- Failing input for the save-after-item-failure invariant: a fresh
archive directory, a repo-info fetch that succeeds, and an `issues`
catalog fetch that fails with HTTP 500. -/
def worldIssuesServerError : World where
  manifestFile := .absent
  repoInfoCached := none
  repoFetch := .ok ⟨true⟩
  bundleMtime := none
  bundleClone := .ok
  bundleBundle := .ok
  wikiMtime := none
  wikiClone := .ok
  wikiBundle := .ok
  readmeMtime := none
  readmeFetch := .ok "x"
  endpointOracle := fun _ => ⟨none, [.httpError 500 "Server Error"], .ok "x"⟩
  now := "tN"
  version := "1.0.0"

/-- Failing input for the wiki gating rule: repo metadata reports no
wiki (`has_wiki` false); every other item is already on disk, so only
the wiki mirror could be attempted; the wiki clone fails with the
remote's not-found message. -/
def worldAllNoWiki : World where
  manifestFile := .absent
  repoInfoCached := none
  repoFetch := .ok ⟨false⟩
  bundleMtime := some "t0"
  bundleClone := .ok
  bundleBundle := .ok
  wikiMtime := none
  wikiClone := .err "remote: Repository not found."
  wikiBundle := .ok
  readmeMtime := some "t0"
  readmeFetch := .ok "x"
  endpointOracle := fun _ => ⟨some "t0", [], .ok "x"⟩
  now := "tN"
  version := "1.0.0"

/-- A run against a fresh directory whose repo-info fetch succeeds, used
to exercise `download_repo` with an empty inclusion list. -/
def worldFreshOk : World where
  manifestFile := .absent
  repoInfoCached := none
  repoFetch := .ok ⟨true⟩
  bundleMtime := none
  bundleClone := .ok
  bundleBundle := .ok
  wikiMtime := none
  wikiClone := .ok
  wikiBundle := .ok
  readmeMtime := none
  readmeFetch := .ok "x"
  endpointOracle := fun _ => ⟨none, [], .ok "x"⟩
  now := "tN"
  version := "1.0.0"

/-! ## Helper lemmas -/

theorem getEntry_setEntry_self (l : List (String × ManifestEntry)) (k : String)
    (v : ManifestEntry) : getEntry (setEntry l k v) k = some v := by
  induction l with
  | nil => simp [setEntry, getEntry]
  | cons p rest ih =>
    by_cases h : p.1 = k
    · simp [setEntry, getEntry, h]
    · simp [setEntry, getEntry, h, ih]

theorem run_endpoints_empty (w : World) (s : DState) (eps : List EndpointSpec) :
    run_endpoints w [] s eps = ⟨s, [], [], none⟩ := by
  induction eps with
  | nil => rfl
  | cons ep rest ih => simp [run_endpoints, ih]

theorem save_manifest_entries (v : String) (s : DState) :
    (save_manifest v s).2.entries = s.entries := by
  unfold save_manifest
  by_cases h : s.userAgent.isNone || manifests_differ s <;> simp [h]

/-! ## Claims -/

/-- Claim C5, counterexample: the retrying transport's wait duration for a
rate-limited response with no `retry-after` header is NOT clamped below
at zero: with the reset timestamp 100 already 10 seconds in the past at
`now = 110` and `max_wait = 100`, the duration handed to `time.sleep` is
`-9`, which is negative and differs from the claimed
`min(max(0, reset - now) + 1, max_wait) = 1`. -/
theorem c5_negative_sleep_counterexample :
    rate_limited ⟨403, some "0", none, 100⟩ = true ∧
    rate_limit_sleep 100 ⟨403, some "0", none, 100⟩ 110 = -9 ∧
    rate_limit_sleep 100 ⟨403, some "0", none, 100⟩ 110 < 0 ∧
    rate_limit_sleep 100 ⟨403, some "0", none, 100⟩ 110 ≠
      min (max 0 ((100 : Int) - 110) + 1) 100 := by
  refine ⟨rfl, rfl, by decide, by decide⟩

/-- Claim C5, amended: for a rate-limited response without a relative
`retry-after` directive the wait is `(reset - now) + 1` clamped above by
`max_wait`, with no lower clamp; whenever the reset timestamp is not in
the past this coincides with the claimed `max(0, reset - now) + 1`
clamped form, but for a reset in the past the duration is allowed to be
negative. -/
theorem c5_sleep_formula (maxWait now : Int) (r : HttpResp)
    (h_rl : rate_limited r = true) (hra : r.retryAfter = none)
    (hfuture : now ≤ r.ratelimitReset) :
    rate_limit_sleep maxWait r now = min (r.ratelimitReset - now + 1) maxWait ∧
    rate_limit_sleep maxWait r now =
      min (max 0 (r.ratelimitReset - now) + 1) maxWait := by
  have h1 : rate_limit_sleep maxWait r now =
      min (r.ratelimitReset - now + 1) maxWait := by
    unfold rate_limit_sleep
    rw [hra]
  refine ⟨h1, ?_⟩
  rw [h1]
  omega

/-- Claim C5: witness for `c5_sleep_formula` at a concrete rate-limited
response with the reset 5 seconds in the future. -/
theorem c5_sleep_formula_witness :
    rate_limited ⟨429, some "0", none, 105⟩ = true ∧
    (100 : Int) ≤ 105 ∧
    rate_limit_sleep 100 ⟨429, some "0", none, 105⟩ 100 =
      min (max 0 ((105 : Int) - 100) + 1) 100 :=
  ⟨by decide, by decide,
    (c5_sleep_formula 100 100 ⟨429, some "0", none, 105⟩ (by decide) rfl
      (by decide)).2⟩

/-- Claim C6, counterexample: loading a manifest file that exists but is
not parseable as JSON does not yield an empty manifest — `json.loads`
raises and the error propagates out of `load_manifest`. -/
theorem c6_corrupt_manifest_counterexample :
    load_manifest ManifestFile.invalid = .error () :=
  rfl

/-- Claim C6, amended: loading returns the empty manifest exactly when no
manifest file exists; a file that exists but cannot be parsed makes the
whole `download_repo` run raise before any state is established —
nothing is fetched, nothing is written, and no manifest is saved. -/
theorem c6_load_manifest_behaviour (w : World) (inc : Option (List String))
    (hbad : w.manifestFile = ManifestFile.invalid) :
    load_manifest ManifestFile.absent = .ok ⟨[], none, none⟩ ∧
    (download_repo w inc).outcome = .raised .jsonDecode ∧
    (download_repo w inc).saved = none ∧
    (download_repo w inc).endpointCalls = [] ∧
    (download_repo w inc).gitAttempts = [] := by
  refine ⟨rfl, ?_, ?_, ?_, ?_⟩ <;> simp [download_repo, hbad, load_manifest]

/-- Claim C6: witness for `c6_load_manifest_behaviour` on a concrete world
holding a corrupt manifest file. -/
theorem c6_load_manifest_behaviour_witness :
    ({ worldFreshOk with manifestFile := .invalid } : World).manifestFile =
      ManifestFile.invalid ∧
    (download_repo { worldFreshOk with manifestFile := .invalid } none).saved =
      none :=
  ⟨rfl, (c6_load_manifest_behaviour
    { worldFreshOk with manifestFile := .invalid } none rfl).2.2.1⟩

/-- Claim C7: `dict.copy()` in `load_manifest` is shallow, so
`original_manifest` shares the `entries` dict with `manifest` and the
change comparison in `save_manifest` can never observe an entry-level
change.  A manifest loaded with user agent `gitspoke/0.1.0` that then
records a new entry (so the in-memory manifest differs from the
manifest as loaded, whose entry table was empty) is saved with the OLD
user agent, not the current tool version `gitspoke/1.2.3`. -/
theorem c7_stale_user_agent :
    load_manifest (.valid (some "gitspoke/0.1.0") (some [])) =
      .ok ⟨[], some "gitspoke/0.1.0", some "gitspoke/0.1.0"⟩ ∧
    (update_manifest ⟨[], some "gitspoke/0.1.0", some "gitspoke/0.1.0"⟩
      "issues" .success "t1").entries ≠ [] ∧
    (save_manifest "1.2.3" (update_manifest
      ⟨[], some "gitspoke/0.1.0", some "gitspoke/0.1.0"⟩
      "issues" .success "t1")).2.userAgent = some "gitspoke/0.1.0" ∧
    (save_manifest "1.2.3" (update_manifest
      ⟨[], some "gitspoke/0.1.0", some "gitspoke/0.1.0"⟩
      "issues" .success "t1")).2.userAgent ≠ some "gitspoke/1.2.3" := by
  refine ⟨rfl, by decide, rfl, by decide⟩

/-- Claim C8: a paginated fetch whose pages all carry `next` links until a
mid-stream `HTTPError` yields exactly the items of the pages before the
failing one; the generator then returns silently if the error is the
422 pagination-limit error, and re-raises it for any other HTTP
error. -/
theorem c8_pagination_limit_truncation (pre : List PageResult) (st : Nat)
    (body : String) (hpre : allNextPages pre = true) :
    (pagination_limit_error st body = true →
      paginate (pre ++ [PageResult.httpError st body]) =
        (itemsOf pre, PagOutcome.normal)) ∧
    (pagination_limit_error st body = false →
      paginate (pre ++ [PageResult.httpError st body]) =
        (itemsOf pre, PagOutcome.raised st body)) := by
  induction pre with
  | nil =>
    constructor
    · intro h; simp [paginate, itemsOf, h]
    · intro h; simp [paginate, itemsOf, h]
  | cons p rest ih =>
    match p with
    | .page items true =>
      have h1 := ih (by simpa [allNextPages] using hpre)
      constructor
      · intro h
        simp [paginate, itemsOf, h1.1 h]
      · intro h
        simp [paginate, itemsOf, h1.2 h]
    | .page items false => simp [allNextPages] at hpre
    | .httpError a b => simp [allNextPages] at hpre

/-- Claim C8: witness: two full pages followed by the provider's 422
pagination-limit error yield exactly the four collected items and end
normally. -/
theorem c8_pagination_limit_truncation_witness :
    allNextPages [PageResult.page ["i1", "i2"] true,
      PageResult.page ["i3", "i4"] true] = true ∧
    pagination_limit_error 422
      "In order to keep the API fast, pagination is limited for this resource." =
      true ∧
    paginate ([PageResult.page ["i1", "i2"] true,
        PageResult.page ["i3", "i4"] true] ++
      [PageResult.httpError 422
        "In order to keep the API fast, pagination is limited for this resource."]) =
      (["i1", "i2", "i3", "i4"], PagOutcome.normal) := by
  refine ⟨by decide, by decide, ?_⟩
  exact (c8_pagination_limit_truncation
    [PageResult.page ["i1", "i2"] true, PageResult.page ["i3", "i4"] true]
    422
    "In order to keep the API fast, pagination is limited for this resource."
    (by decide)).1 (by decide)

/-- Claim C2, counterexample: a `pages` fetch (descriptor declares
`expect_404`) that 404s records manifest status `not found` and raises
nothing — but NO placeholder artifact is written: the file write sits in
the `try` body, which the exception skipped. -/
theorem c2_no_placeholder_counterexample :
    (write_api_response ⟨[], none, none⟩ "tN" "pages" none true true
      [PageResult.httpError 404 "Not Found"] (.ok "x")).fileWritten = none ∧
    getEntry (write_api_response ⟨[], none, none⟩ "tN" "pages" none true true
      [PageResult.httpError 404 "Not Found"] (.ok "x")).state.entries "pages" =
      some ⟨"tN", .notFound⟩ ∧
    (write_api_response ⟨[], none, none⟩ "tN" "pages" none true true
      [PageResult.httpError 404 "Not Found"] (.ok "x")).exc = none := by
  decide

/-- Claim C2, amended: for an item not yet done whose descriptor declares
`expect_404`, a fetch raising HTTP 404 (in either fetch mode) records
manifest status `not found` and raises no exception to the caller, but
writes NO placeholder artifact — the target file is simply left
absent. -/
theorem c2_soft404_behaviour (s s1 : DState) (now item : String)
    (mt : Option String) (pages : List PageResult) (single : FetchOutcome)
    (items : List String) (body : String)
    (hms : manifest_success s item mt = (false, s1))
    (hpag : paginate pages = (items, PagOutcome.raised 404 body)) :
    ((write_api_response s now item mt true true pages single).fileWritten =
        none ∧
      getEntry (write_api_response s now item mt true true pages
        single).state.entries item = some ⟨now, .notFound⟩ ∧
      (write_api_response s now item mt true true pages single).exc = none) ∧
    ((write_api_response s now item mt false true pages
        (.httpError 404 body)).fileWritten = none ∧
      getEntry (write_api_response s now item mt false true pages
        (.httpError 404 body)).state.entries item = some ⟨now, .notFound⟩ ∧
      (write_api_response s now item mt false true pages
        (.httpError 404 body)).exc = none) := by
  refine ⟨⟨?_, ?_, ?_⟩, ?_, ?_, ?_⟩ <;>
    (unfold write_api_response; rw [hms]; simp [hpag, update_manifest,
      getEntry_setEntry_self])

/-- Claim C2: witness for `c2_soft404_behaviour`: fresh manifest state and a
`pages` fetch whose first page 404s. -/
theorem c2_soft404_behaviour_witness :
    manifest_success ⟨[], none, none⟩ "pages" none = (false, ⟨[], none, none⟩) ∧
    paginate [PageResult.httpError 404 "nf"] = ([], PagOutcome.raised 404 "nf") ∧
    ((write_api_response ⟨[], none, none⟩ "t" "pages" none true true
        [PageResult.httpError 404 "nf"] (.ok "x")).fileWritten = none ∧
      getEntry (write_api_response ⟨[], none, none⟩ "t" "pages" none true true
        [PageResult.httpError 404 "nf"] (.ok "x")).state.entries "pages" =
        some ⟨"t", .notFound⟩ ∧
      (write_api_response ⟨[], none, none⟩ "t" "pages" none true true
        [PageResult.httpError 404 "nf"] (.ok "x")).exc = none) :=
  ⟨by decide, by decide,
    (c2_soft404_behaviour ⟨[], none, none⟩ ⟨[], none, none⟩ "t" "pages" none
      [PageResult.httpError 404 "nf"] (.ok "x") [] "nf" (by decide)
      (by decide)).1⟩

/-- Claim C4, counterexample: a mirror clone failure whose stderr is not
one of the two recognized soft-failure messages is recorded as `error`
but NOT propagated — `download_git_repo` returns normally, refuting the
claimed conjunction "recorded AND propagated". -/
theorem c4_clone_failure_not_propagated :
    (download_git_repo ⟨[], none, none⟩ "tN" "git" none
      (.err "fatal: unable to access host") .ok).exc = none ∧
    getEntry (download_git_repo ⟨[], none, none⟩ "tN" "git" none
      (.err "fatal: unable to access host") .ok).state.entries "git" =
      some ⟨"tN", .error⟩ := by
  decide

/-- Claim C4, amended: the two hard-failure paths are asymmetric.  A clone
failure other than "Repository not found" is recorded as `error` in the
manifest but swallowed (the function returns normally); a
bundle-creation failure other than "Refusing to create empty bundle" is
propagated as an exception but NOT recorded — the manifest is left
unchanged and no bundle is written. -/
theorem c4_mirror_hard_failures (s s1 : DState) (now item : String)
    (mt : Option String) (e e2 : String) (bundle : GitResult)
    (hms : manifest_success s item mt = (false, s1))
    (hclone : containsSub e "Repository not found" = false)
    (hbundle : containsSub e2 "Refusing to create empty bundle" = false) :
    ((download_git_repo s now item mt (.err e) bundle).exc = none ∧
      getEntry (download_git_repo s now item mt (.err e)
        bundle).state.entries item = some ⟨now, .error⟩) ∧
    ((download_git_repo s now item mt .ok (.err e2)).exc =
        some (.calledProcess e2) ∧
      (download_git_repo s now item mt .ok (.err e2)).state = s1 ∧
      (download_git_repo s now item mt .ok (.err e2)).bundleWritten = false) := by
  refine ⟨⟨?_, ?_⟩, ?_, ?_, ?_⟩ <;>
    (unfold download_git_repo; rw [hms]; simp [hclone, hbundle,
      update_manifest, getEntry_setEntry_self])

/-- Claim C4: witness for `c4_mirror_hard_failures`: fresh state, a network
clone failure and a disk-full bundle failure. -/
theorem c4_mirror_hard_failures_witness :
    manifest_success ⟨[], none, none⟩ "git" none = (false, ⟨[], none, none⟩) ∧
    containsSub "fatal: network unreachable" "Repository not found" = false ∧
    containsSub "fatal: disk full" "Refusing to create empty bundle" = false ∧
    ((download_git_repo ⟨[], none, none⟩ "t" "git" none
        (.err "fatal: network unreachable") .ok).exc = none ∧
      getEntry (download_git_repo ⟨[], none, none⟩ "t" "git" none
        (.err "fatal: network unreachable") .ok).state.entries "git" =
        some ⟨"t", .error⟩) ∧
    ((download_git_repo ⟨[], none, none⟩ "t" "git" none .ok
        (.err "fatal: disk full")).exc = some (.calledProcess "fatal: disk full") ∧
      (download_git_repo ⟨[], none, none⟩ "t" "git" none .ok
        (.err "fatal: disk full")).state = ⟨[], none, none⟩ ∧
      (download_git_repo ⟨[], none, none⟩ "t" "git" none .ok
        (.err "fatal: disk full")).bundleWritten = false) :=
  ⟨by decide, by decide, by decide,
    (c4_mirror_hard_failures ⟨[], none, none⟩ ⟨[], none, none⟩ "t" "git" none
      "fatal: network unreachable" "fatal: disk full" .ok (by decide)
      (by decide) (by decide)).1,
    (c4_mirror_hard_failures ⟨[], none, none⟩ ⟨[], none, none⟩ "t" "git" none
      "fatal: network unreachable" "fatal: disk full" .ok (by decide)
      (by decide) (by decide)).2⟩

/-- Claim C9: a readme fetch that fails with any HTTP error (404 included)
is absorbed: `download_readme` records `error` for the readme item,
writes nothing, and returns normally — while the same HTTP error on a
catalog item without `expect_404` is re-raised by
`write_api_response`. -/
theorem c9_readme_error_absorbed (s s1 s2 s3 : DState) (now : String)
    (mt mt2 : Option String) (st : Nat) (body body2 item : String)
    (hms : manifest_success s "readme" mt = (false, s1))
    (hms2 : manifest_success s2 item mt2 = (false, s3)) :
    (download_readme s now mt (.httpError st body)).exc = none ∧
    (download_readme s now mt (.httpError st body)).htmlWritten = none ∧
    getEntry (download_readme s now mt
      (.httpError st body)).state.entries "readme" = some ⟨now, .error⟩ ∧
    (write_api_response s2 now item mt2 false false []
      (.httpError st body2)).exc = some (.httpError st body2) := by
  refine ⟨?_, ?_, ?_, ?_⟩
  · unfold download_readme; rw [hms]
  · unfold download_readme; rw [hms]
  · unfold download_readme; rw [hms]
    simp [update_manifest, getEntry_setEntry_self]
  · unfold write_api_response; rw [hms2]; simp

/-- Claim C9: witness for `c9_readme_error_absorbed`: fresh state, a 503 on
the readme and on an `issues` fetch. -/
theorem c9_readme_error_absorbed_witness :
    manifest_success ⟨[], none, none⟩ "readme" none = (false, ⟨[], none, none⟩) ∧
    ((download_readme ⟨[], none, none⟩ "t" none (.httpError 503 "b")).exc =
        none ∧
      (download_readme ⟨[], none, none⟩ "t" none
        (.httpError 503 "b")).htmlWritten = none ∧
      getEntry (download_readme ⟨[], none, none⟩ "t" none
        (.httpError 503 "b")).state.entries "readme" = some ⟨"t", .error⟩ ∧
      (write_api_response ⟨[], none, none⟩ "t" "issues" none false false []
        (.httpError 503 "b2")).exc = some (.httpError 503 "b2")) :=
  ⟨by decide,
    c9_readme_error_absorbed ⟨[], none, none⟩ ⟨[], none, none⟩ ⟨[], none, none⟩
      ⟨[], none, none⟩ "t" none none 503 "b" "b2" "issues" (by decide)
      (by decide)⟩

/-- Claim C1: `download_repo` has no finally-block around item processing:
on a run whose repo-identity resolution succeeds, an unexpected HTTP 500
on the `issues` catalog item is recorded as `error` in the in-memory
manifest (the failure is local to that one item) and then propagates
out of `download_repo` BEFORE `save_manifest` runs — no manifest is
written to disk, refuting the claim that a per-item failure never
prevents the final save. -/
theorem c1_item_failure_skips_save :
    (download_repo worldIssuesServerError (some ["issues"])).saved = none ∧
    (download_repo worldIssuesServerError (some ["issues"])).outcome =
      .raised (.httpError 500 "Server Error") ∧
    (download_repo worldIssuesServerError (some ["issues"])).endpointCalls =
      ["issues"] ∧
    (download_repo worldIssuesServerError (some ["issues"])).state.map
      (fun s => getEntry s.entries "issues") = some (some ⟨"tN", .error⟩) ∧
    (download_repo worldIssuesServerError (some ["issues"])).state.map
      (fun s => getEntry s.entries "repo_info") =
      some (some ⟨"tN", .success⟩) := by
  decide

/-- Claim C3: in the wiki condition of `download_repo`, Python's `and`
binds tighter than `or`, so the inclusion token `all` bypasses the
`has_wiki` gate: against a repository whose metadata reports
`has_wiki = false`, a run with `include = [all]` still attempts the wiki
mirror clone (which then fails remotely and is recorded `not found`),
while a run selecting the `wiki` token is gated as the claim states. -/
theorem c3_all_bypasses_wiki_gate :
    worldAllNoWiki.repoFetch = .ok ⟨false⟩ ∧
    (download_repo worldAllNoWiki (some ["all"])).gitAttempts = ["wiki"] ∧
    (download_repo worldAllNoWiki (some ["all"])).state.map
      (fun s => getEntry s.entries "wiki") = some (some ⟨"tN", .notFound⟩) ∧
    (download_repo worldAllNoWiki (some ["wiki"])).gitAttempts = [] := by
  decide

/-- Claim C10: a `download_repo` run with `include = None` or an empty
inclusion list still creates the output directory, resolves repo
identity (writing `repo_info.json` and recording its manifest entry
when no cached snapshot exists), and saves the manifest — while
attempting no mirror clone, no readme fetch and no catalog endpoint,
and writing no artifact beyond `repo_info.json`. -/
theorem c10_empty_include_run (w : World) (s0 : DState) (info : RepoInfo)
    (mt : String) (inc : Option (List String))
    (hload : load_manifest w.manifestFile = .ok s0)
    (hinc : inc = none ∨ inc = some []) :
    (download_repo w inc).dirCreated = true ∧
    (download_repo w inc).gitAttempts = [] ∧
    (download_repo w inc).bundleWrites = [] ∧
    (download_repo w inc).readmeInvoked = false ∧
    (download_repo w inc).readmeWrite = none ∧
    (download_repo w inc).endpointCalls = [] ∧
    (download_repo w inc).endpointWrites = [] ∧
    (w.repoInfoCached = none → w.repoFetch = .ok info →
      (download_repo w inc).saved.isSome = true ∧
      (download_repo w inc).repoInfoWrite = some info ∧
      getEntry ((download_repo w inc).saved.getD ⟨none, []⟩).entries
        "repo_info" = some ⟨w.now, .success⟩) ∧
    (w.repoInfoCached = some (info, mt) →
      (download_repo w inc).saved.isSome = true ∧
      (download_repo w inc).repoInfoWrite = none) := by
  have hset : inc.getD [] = [] := by rcases hinc with h | h <;> simp [h]
  rcases hrs : repo_step w s0 with _ | ⟨s1, info1, iw⟩
  · have key : download_repo w inc =
        ⟨true, some s0, none, [], [], false, none, [], [], none, .earlyReturn⟩ := by
      simp [download_repo, hset, hload, hrs]
    refine ⟨by rw [key], by rw [key], by rw [key], by rw [key], by rw [key],
      by rw [key], by rw [key], ?_, ?_⟩
    · intro hc hf
      simp [repo_step, hc, hf] at hrs
    · intro hc
      simp [repo_step, hc] at hrs
  · have key : download_repo w inc =
        ⟨true, some (save_manifest w.version s1).1, iw, [], [], false, none,
          [], [], some (save_manifest w.version s1).2, .completed⟩ := by
      simp [download_repo, hset, hload, hrs, run_endpoints_empty]
    refine ⟨by rw [key], by rw [key], by rw [key], by rw [key], by rw [key],
      by rw [key], by rw [key], ?_, ?_⟩
    · intro hc hf
      simp [repo_step, hc, hf] at hrs
      obtain ⟨h1, h2, h3⟩ := hrs
      rw [key]
      refine ⟨rfl, by rw [h3], ?_⟩
      simp [save_manifest_entries, ← h1, update_manifest, getEntry_setEntry_self]
    · intro hc
      simp [repo_step, hc] at hrs
      rw [key]
      exact ⟨rfl, by rw [hrs.2.2]⟩

/-- Claim C10: witness for `c10_empty_include_run`: a fresh directory, a
successful repo-info fetch and `include = None`. -/
theorem c10_empty_include_run_witness :
    load_manifest worldFreshOk.manifestFile = .ok ⟨[], none, none⟩ ∧
    ((download_repo worldFreshOk none).dirCreated = true ∧
      (download_repo worldFreshOk none).gitAttempts = [] ∧
      (download_repo worldFreshOk none).endpointCalls = [] ∧
      (download_repo worldFreshOk none).readmeInvoked = false ∧
      (download_repo worldFreshOk none).saved.isSome = true ∧
      (download_repo worldFreshOk none).repoInfoWrite = some ⟨true⟩) := by
  have h := c10_empty_include_run worldFreshOk ⟨[], none, none⟩ ⟨true⟩ "t0" none
    rfl (Or.inl rfl)
  have h8 := h.2.2.2.2.2.2.2.1 rfl rfl
  exact ⟨rfl, h.1, h.2.1, h.2.2.2.2.2.1, h.2.2.2.1, h8.1, h8.2.1⟩

end Gitspoke
